import Mathlib

/-!
Shallow embedding of the account-linking and role-synchronization workflow
(`src/handlers.rs` of RESTful-C2SUserData), together with spec-modelled
collaborators (storage adapter, role synchronizer, audit sink) for the parts
of the repository that are not part of the handler source.
-/

namespace C2SUserData

/-- Modelled from the spec: `constants.rs` (the `LOG` severity enumeration) is
not part of the handler source.  §6: the audit sink takes a severity, one of
INFORMATIONAL, SUCCESSFUL, FAILURE. -/
inductive LOG where
  | INFORMATIONAL : LOG
  | SUCCESSFUL : LOG
  | FAILURE : LOG
deriving DecidableEq

/-- One line sent to the audit sink (`webhook_log(content, severity)`). -/
structure LogEntry where
  content : String
  severity : LOG
deriving DecidableEq

/-- The `ErrorLogType` from `constants.rs` as used by `handlers.rs`: a failure is
attributed either to a user (carrying the identity token) or to the process
itself. -/
inductive ErrorLogType where
  | USER : String → ErrorLogType
  | INTERNAL : ErrorLogType
deriving DecidableEq

/-- The closed set of caller-facing error kinds from `errors.rs` as
constructed in `handlers.rs`: `NotFound`, `BadRequest(&str)`,
`InternalError(&str)`. -/
inductive MyError where
  | NotFound : MyError
  | BadRequest : String → MyError
  | InternalError : String → MyError
deriving DecidableEq

/-- Modelled from the spec: the `Display` rendering of `MyError` lives in
`errors.rs`, which is not part of the handler source.  §3: the classification
carries a static human-readable message and never the original internal
detail, so the rendering is the static message itself. -/
def MyError.str : MyError → String
  | .NotFound => "NotFound"
  | .BadRequest m => m
  | .InternalError m => m

/-- The trait method `ConvertResultErrorToMyError::make_response`: replace any error of a
`Result` by the given classified error (the original error is only printed to
stdout, which is not the audit sink). -/
def make_response {T E : Type} : Except E T → MyError → Except MyError T
  | .ok d, _ => .ok d
  | .error _, e => .error e

/-- The audit line built by `LogMyError::make_log` for a failure. -/
def logContent : ErrorLogType → MyError → String
  | .USER tok, e => "Error with a user\n\ntoken: " ++ tok ++ "\n\n" ++ e.str
  | .INTERNAL, e => e.str

/-- The trait method `LogMyError::make_log`: pass a success through untouched; on a failure,
emit one FAILURE entry to the audit sink and return the failure unchanged. -/
def make_log {T : Type} : Except MyError T → ErrorLogType → Except MyError T × List LogEntry
  | .ok v, _ => (.ok v, [])
  | .error e, t => (.error e, [⟨logContent t e, .FAILURE⟩])

/-- The persisted account record (`models.rs` is not part of the handler
source; fields are taken from their uses in `handlers.rs` and §3 of the spec:
identity token, external numeric identifier, distribution-channel flag,
domain progress attributes of type `Attr`). -/
structure Userdata (Attr : Type) where
  token : String
  discord_id : Int
  beta_tester : Bool
  data : Attr
deriving DecidableEq

/-- The store is the list of persisted records. -/
abbrev DB (Attr : Type) : Type := List (Userdata Attr)

/-- Modelled from the spec: `db.rs` is not part of the handler source.
§4.2 `fetch_by_token(token) -> Record | NotFound`. -/
def get_userdata {Attr : Type} (db : DB Attr) (tok : String) : Option (Userdata Attr) :=
  db.find? (fun u => u.token == tok)

/-- Modelled from the spec: `db.rs` is not part of the handler source.
§4.2 `fetch_by_external_id(external_id) -> Record | NotFound`. -/
def get_userdata_by_id {Attr : Type} (db : DB Attr) (id : Int) : Option (Userdata Attr) :=
  db.find? (fun u => u.discord_id == id)

/-- Modelled from the spec: `db.rs` is not part of the handler source.
§4.2 `update(token, channel_flag, new_attributes) -> Record`, failing when the
token does not exist, replacing the flag and attribute set and returning the
post-update record. -/
def update_userdata {Attr : Type} (db : DB Attr) (tok : String) (beta : Bool) (d : Attr) :
    Option (DB Attr × Userdata Attr) :=
  match get_userdata db tok with
  | none => none
  | some u =>
      let upd : Userdata Attr := { u with beta_tester := beta, data := d }
      some (db.map (fun v => if v.token == tok then upd else v), upd)

/-- Modelled from the spec: `db.rs` is not part of the handler source.
§4.2 `create(token, external_id, channel_flag, initial_attributes) -> Record`,
failing when the token or the external id already exists. -/
def create_userdata {Attr : Type} (db : DB Attr) (tok : String) (id : Int) (beta : Bool)
    (d : Attr) : Option (DB Attr × Userdata Attr) :=
  if (get_userdata db tok).isSome || (get_userdata_by_id db id).isSome then none
  else
    let u : Userdata Attr := ⟨tok, id, beta, d⟩
    some (db ++ [u], u)

/-- Adapter between the `Option`-valued store model and the `Result`-valued
interface the handlers consume. -/
def toExcept {T : Type} : Option T → Except Unit T
  | some v => .ok v
  | none => .error ()

/-- Lowercase hexadecimal digit, as produced by the `{:02x?}` format. -/
def hexDigit (n : Nat) : Char :=
  if n < 10 then Char.ofNat (48 + n) else Char.ofNat (87 + n)

/-- The rendering `format!("{:02x?}", byte)` of a `u8`: two lowercase hex digits,
zero-padded. -/
def hexByte (b : Nat) : String :=
  String.mk [hexDigit (b % 256 / 16), hexDigit (b % 256 % 16)]

/-- The rendering `code().iter().map(|byte| format!("{:02x?}", byte)).collect::<Vec<String>>().join("")`
from `og_update_user`: render a byte sequence as a lowercase hex string. -/
def renderHex (code : List Nat) : String :=
  String.join (code.map (fun byte => hexByte byte))

/-- The legacy-mode token derivation inlined in `og_update_user`
(`handlers.rs` lines 86–96): HMAC-SHA1 of `player_id || player_token` under
the process secret, rendered as lowercase hex.  The HMAC-SHA1 primitive is an
external collaborator (the `crypto` crate) and is kept abstract as a function
from key and message bytes to digest bytes. -/
def og_user_token (hmacSha1 : List Nat → List Nat → List Nat)
    (key player_id player_token : List Nat) : String :=
  renderHex (hmacSha1 key (player_id ++ player_token))

/-- Modelled from the spec: `encode_user_token` lives in `utilities.rs`,
which is not part of the handler source.  §4.1 keyed-credential mode: the
keyed one-way hash (HMAC-equivalent) of `email || token` under the shared
secret key, with the same hex rendering as the legacy mode. -/
def encode_user_token (hmacSha1 : List Nat → List Nat → List Nat)
    (email tok key : List Nat) : String :=
  renderHex (hmacSha1 key (email ++ tok))

/-- Holds exactly on the sixteen lowercase hexadecimal digit characters. -/
def isLowerHexDigit (c : Char) : Bool :=
  "0123456789abcdef".toList.contains c

/-- The caller-facing success payload: a `MessageResponse` JSON body, the raw
created record, or delete's empty `NoContent` response. -/
inductive Response (Attr : Type) where
  | message : String → Response Attr
  | record : Userdata Attr → Response Attr
  | noContent : Response Attr
deriving DecidableEq

/-- The observable outcome of one handler invocation: the caller-facing
result, the post-state of the store, and the lines sent to the audit sink, in
emission order. -/
structure Outcome (Attr : Type) where
  result : Except MyError (Response Attr)
  db : DB Attr
  log : List LogEntry

/-- The caller-visible success message shared by `og_update_user`,
`update_user` and the default-attributes branch of `create_user`. -/
def roles_message (gained_roles : List String) : String :=
  if (String.intercalate ", " gained_roles).isEmpty then
    "The request was successful, but you\x27ve already gained all of the possible roles with your current progress"
  else
    "The request was successful, you\x27ve gained the following roles: " ++
      String.intercalate ", " gained_roles

/-- The audit-sink message shared by the same three paths, keyed by the
external numeric identifier. -/
def logged_roles_message (gained_roles : List String) (discord_id : Int) : String :=
  if (String.intercalate ", " gained_roles).isEmpty then
    "user with ID " ++ toString discord_id ++ " had a successful request but gained no roles"
  else
    "user with ID " ++ toString discord_id ++ " gained the following roles: " ++
      String.intercalate ", " gained_roles

/-- The handler `og_update_user` (`handlers.rs` lines 65–150).  `pool` is the outcome of
`db_pool.get()`, `hmacSha1` the abstract HMAC-SHA1 primitive, `handle_roles`
the role-synchronizer collaborator (applied to the post-update record and the
authority credential). -/
def og_update_user {Attr : Type}
    (hmacSha1 : List Nat → List Nat → List Nat)
    (pool : Except String Unit)
    (player_id player_token : List Nat)
    (beta_tester : Bool) (attrs : Attr)
    (db : DB Attr)
    (userdata_auth : List Nat) (discord_token : String)
    (handle_roles : Userdata Attr → String → Except String (List String)) :
    Outcome Attr :=
  match make_log (make_response pool
      (.InternalError "request failed at creating database client, please try again"))
      .INTERNAL with
  | (.error e, l1) => ⟨.error e, db, l1⟩
  | (.ok _, l1) =>
    let user_token := renderHex (hmacSha1 userdata_auth (player_id ++ player_token))
    match make_log (make_response (toExcept (get_userdata db user_token))
        (.InternalError "Failed at retrieving existing data, you may not have your account linked yet"))
        (.USER user_token) with
    | (.error e, l2) => ⟨.error e, db, l1 ++ l2⟩
    | (.ok _, l2) =>
      match make_log (make_response (toExcept (update_userdata db user_token beta_tester attrs))
          (.InternalError "The request has unfortunately failed the update"))
          (.USER user_token) with
      | (.error e, l3) => ⟨.error e, db, l1 ++ l2 ++ l3⟩
      | (.ok (db2, updated_data), l3) =>
        match make_log (make_response (handle_roles updated_data discord_token)
            (.InternalError "The role-handling process has failed"))
            (.USER user_token) with
        | (.error e, l4) => ⟨.error e, db2, l1 ++ l2 ++ l3 ++ l4⟩
        | (.ok gained_roles, l4) =>
          ⟨.ok (.message (roles_message gained_roles)), db2,
            l1 ++ l2 ++ l3 ++ l4 ++
              [⟨logged_roles_message gained_roles updated_data.discord_id, .INFORMATIONAL⟩]⟩

/-- The handler `update_user` (`handlers.rs` lines 152–230).  `encode` is
`utilities::encode_user_token` kept abstract over string credentials;
`distribution_channel` the header value. -/
def update_user {Attr : Type}
    (pool : Except String Unit)
    (encode : String → String → String → String)
    (auth_email auth_token : String)
    (distribution_channel : String)
    (user_data : Attr)
    (db : DB Attr)
    (userdata_auth discord_token : String)
    (handle_roles : Userdata Attr → String → Except String (List String)) :
    Outcome Attr :=
  match make_log (make_response pool
      (.InternalError "request failed at creating database client, please try again"))
      .INTERNAL with
  | (.error e, l1) => ⟨.error e, db, l1⟩
  | (.ok _, l1) =>
    let user_token := encode auth_email auth_token userdata_auth
    match make_log (make_response (toExcept (get_userdata db user_token))
        (.InternalError "Failed at retrieving existing data, you may not have your account linked yet"))
        (.USER user_token) with
    | (.error e, l2) => ⟨.error e, db, l1 ++ l2⟩
    | (.ok _, l2) =>
      match make_log (make_response
          (toExcept (update_userdata db user_token (distribution_channel == "Beta") user_data))
          (.InternalError "The request has unfortunately failed the update"))
          (.USER user_token) with
      | (.error e, l3) => ⟨.error e, db, l1 ++ l2 ++ l3⟩
      | (.ok (db2, updated_data), l3) =>
        match make_log (make_response (handle_roles updated_data discord_token)
            (.InternalError "The role-handling process has failed"))
            (.USER user_token) with
        | (.error e, l4) => ⟨.error e, db2, l1 ++ l2 ++ l3 ++ l4⟩
        | (.ok gained_roles, l4) =>
          ⟨.ok (.message (roles_message gained_roles)), db2,
            l1 ++ l2 ++ l3 ++ l4 ++
              [⟨logged_roles_message gained_roles updated_data.discord_id, .INFORMATIONAL⟩]⟩

/-- The handler `create_user` (`handlers.rs` lines 233–352).  `distribution_channel` is
the optional header (absent maps to the empty string), `data` the optional
attribute payload of the body (`CreateUserData.data`), `defaultData` the
`UpdateUserData::default()` value. -/
def create_user {Attr : Type}
    (pool : Except String Unit)
    (encode : String → String → String → String)
    (auth_email auth_token : String)
    (distribution_channel : Option String)
    (discord_id : Int)
    (data : Option Attr)
    (defaultData : Attr)
    (db : DB Attr)
    (userdata_auth discord_token : String)
    (handle_roles : Userdata Attr → String → Except String (List String)) :
    Outcome Attr :=
  let is_default_userdata := data.isNone
  let inner_data := match data with
    | some u => u
    | none => defaultData
  let dc := match distribution_channel with
    | some channel => channel
    | none => ""
  match make_log (make_response pool
      (.InternalError "request failed at creating database client, please try again"))
      .INTERNAL with
  | (.error e, l1) => ⟨.error e, db, l1⟩
  | (.ok _, l1) =>
    let user_token := encode auth_email auth_token userdata_auth
    match make_log (make_response (toExcept (get_userdata db user_token)) .NotFound)
        (.USER user_token) with
    | (.ok stored, l2) =>
        if discord_id ≠ stored.discord_id then
          ⟨.error (.BadRequest "This account is already bound to another discord id"), db,
            l1 ++ l2⟩
        else
          ⟨.error (.InternalError "You\x27re already linked, please use the update endpoint"),
            db, l1 ++ l2⟩
    | (.error _, l2) =>
      match make_log (make_response (toExcept (get_userdata_by_id db discord_id)) .NotFound)
          (.USER user_token) with
      | (.ok _, l3) =>
          ⟨.error (.BadRequest "This discord id is already bound to another account"), db,
            l1 ++ l2 ++ l3⟩
      | (.error _, l3) =>
        match make_log (make_response
            (toExcept (create_userdata db user_token discord_id (dc == "Beta") inner_data))
            (.InternalError "The request has unfortunately failed at creating your account"))
            (.USER user_token) with
        | (.error e, l4) => ⟨.error e, db, l1 ++ l2 ++ l3 ++ l4⟩
        | (.ok (db2, created_data), l4) =>
          if is_default_userdata then
            match make_log (make_response (handle_roles created_data discord_token)
                (.InternalError "The role-handling process has failed"))
                (.USER user_token) with
            | (.error e, l5) => ⟨.error e, db2, l1 ++ l2 ++ l3 ++ l4 ++ l5⟩
            | (.ok gained_roles, l5) =>
              ⟨.ok (.message (roles_message gained_roles)), db2,
                l1 ++ l2 ++ l3 ++ l4 ++ l5 ++
                  [⟨logged_roles_message gained_roles created_data.discord_id, .INFORMATIONAL⟩]⟩
          else
            ⟨.ok (.record created_data), db2,
              l1 ++ l2 ++ l3 ++ l4 ++
                [⟨"created userdata for user of id \x27" ++ toString created_data.discord_id ++
                  "\x27", .SUCCESSFUL⟩]⟩

/-- The handler `delete_user` (`handlers.rs` lines 354–384): existence check only, no
removal (the source marks the real deletion as a TODO). -/
def delete_user {Attr : Type}
    (pool : Except String Unit)
    (encode : String → String → String → String)
    (auth_email auth_token : String)
    (db : DB Attr)
    (userdata_auth : String) :
    Outcome Attr :=
  match make_log (make_response pool
      (.InternalError "request failed at creating database client, please try again"))
      .INTERNAL with
  | (.error e, l1) => ⟨.error e, db, l1⟩
  | (.ok _, l1) =>
    let user_token := encode auth_email auth_token userdata_auth
    match make_log (make_response (toExcept (get_userdata db user_token))
        (.InternalError "Failed at deleting userdata, this token may not be valid"))
        (.USER user_token) with
    | (.error e, l2) => ⟨.error e, db, l1 ++ l2⟩
    | (.ok _, l2) => ⟨.ok .noContent, db, l1 ++ l2⟩

theorem foldl_append_data (l : List String) (acc : String) :
    (l.foldl (fun r s => r ++ s) acc).data = acc.data ++ (l.map String.data).flatten := by
  induction l generalizing acc with
  | nil => simp
  | cons s l ih => simp [List.foldl_cons, ih, String.data_append, List.append_assoc]

theorem join_data (l : List String) :
    (String.join l).data = (l.map String.data).flatten := by
  simp [String.join, foldl_append_data]

theorem hexByte_data (b : Nat) :
    (hexByte b).data = [hexDigit (b % 256 / 16), hexDigit (b % 256 % 16)] := rfl

theorem renderHex_data (code : List Nat) :
    (renderHex code).data = (code.map (fun b => (hexByte b).data)).flatten := by
  rw [renderHex, join_data, List.map_map]
  rfl

theorem renderHex_length (code : List Nat) :
    (renderHex code).length = 2 * code.length := by
  show (renderHex code).data.length = 2 * code.length
  rw [renderHex_data, List.length_flatten, List.map_map]
  have h2 : ∀ b : Nat, ((hexByte b).data).length = 2 := fun _ => rfl
  simp only [Function.comp_def, h2, List.map_const', List.sum_replicate, smul_eq_mul]
  exact Nat.mul_comm _ _

theorem isLowerHexDigit_hexDigit (n : Nat) (h : n < 16) :
    isLowerHexDigit (hexDigit n) = true := by
  interval_cases n <;> decide

theorem renderHex_mem {code : List Nat} (c : Char) (h : c ∈ (renderHex code).toList) :
    isLowerHexDigit c = true := by
  have hdata : c ∈ (code.map (fun b => (hexByte b).data)).flatten := by
    rw [← renderHex_data]
    exact h
  rw [List.mem_flatten] at hdata
  obtain ⟨l, hl, hc⟩ := hdata
  rw [List.mem_map] at hl
  obtain ⟨b, _, rfl⟩ := hl
  rw [hexByte_data, List.mem_cons, List.mem_cons] at hc
  rcases hc with rfl | rfl | hc
  · exact isLowerHexDigit_hexDigit _ (by omega)
  · exact isLowerHexDigit_hexDigit _ (by omega)
  · exact absurd hc (List.not_mem_nil c)

/-- C6: identity-token derivation is pure and deterministic — on the same
credential inputs and secret key two derivations yield the same token — and,
given the 20-byte digest length of the HMAC-SHA1 collaborator, the token is a
fixed-length (40-character) lowercase hexadecimal string in both the legacy
(player-ID) mode and the keyed (email/token) mode. -/
theorem token_derivation_deterministic_hex
    (hmacSha1 : List Nat → List Nat → List Nat)
    (key pid ptok email tok : List Nat)
    (hlen1 : (hmacSha1 key (pid ++ ptok)).length = 20)
    (hlen2 : (hmacSha1 key (email ++ tok)).length = 20) :
    og_user_token hmacSha1 key pid ptok = og_user_token hmacSha1 key pid ptok ∧
    encode_user_token hmacSha1 email tok key = encode_user_token hmacSha1 email tok key ∧
    (og_user_token hmacSha1 key pid ptok).length = 40 ∧
    (encode_user_token hmacSha1 email tok key).length = 40 ∧
    (∀ c ∈ (og_user_token hmacSha1 key pid ptok).toList, isLowerHexDigit c = true) ∧
    (∀ c ∈ (encode_user_token hmacSha1 email tok key).toList, isLowerHexDigit c = true) := by
  refine ⟨rfl, rfl, ?_, ?_, ?_, ?_⟩
  · rw [og_user_token, renderHex_length, hlen1]
  · rw [encode_user_token, renderHex_length, hlen2]
  · exact fun c hc => renderHex_mem c hc
  · exact fun c hc => renderHex_mem c hc

/-- Concrete instance of the C6 theorem: with an HMAC collaborator returning
the 20-byte digest `List.range 20`, both derivation modes produce 40-character
tokens. -/
theorem token_derivation_deterministic_hex_witness :
    (og_user_token (fun _ _ => List.range 20) [1] [2] [3]).length = 40 ∧
    (encode_user_token (fun _ _ => List.range 20) [4] [5] [1]).length = 40 :=
  ⟨(token_derivation_deterministic_hex (fun _ _ => List.range 20) [1] [2] [3] [4] [5]
      rfl rfl).2.2.1,
   (token_derivation_deterministic_hex (fun _ _ => List.range 20) [1] [2] [3] [4] [5]
      rfl rfl).2.2.2.1⟩

/-- C1: create's guarding probes — if the token probe finds a record whose
external id differs from the request's, create returns the BadRequest
"already bound to another discord id" conflict; if it finds one with the same
external id, create returns the "already linked, use update" internal error;
if the token probe reports not-found but the external-id probe finds a
record, create returns the BadRequest "discord id already bound to another
account" conflict; and only when both probes report not-found does create
insert a record into the store. -/
theorem create_conflict_rules {Attr : Type}
    (encode : String → String → String → String)
    (auth_email auth_token : String) (dc : Option String) (id : Int)
    (data : Option Attr) (defaultData : Attr) (db : DB Attr)
    (ua dt : String) (hr : Userdata Attr → String → Except String (List String))
    (u : Userdata Attr) :
    (get_userdata db (encode auth_email auth_token ua) = some u →
      (id ≠ u.discord_id →
        (create_user (.ok ()) encode auth_email auth_token dc id data defaultData db
            ua dt hr).result
          = .error (.BadRequest "This account is already bound to another discord id")) ∧
      (id = u.discord_id →
        (create_user (.ok ()) encode auth_email auth_token dc id data defaultData db
            ua dt hr).result
          = .error (.InternalError "You\x27re already linked, please use the update endpoint"))) ∧
    (get_userdata db (encode auth_email auth_token ua) = none →
      (∀ v, get_userdata_by_id db id = some v →
        (create_user (.ok ()) encode auth_email auth_token dc id data defaultData db
            ua dt hr).result
          = .error (.BadRequest "This discord id is already bound to another account")) ∧
      (get_userdata_by_id db id = none →
        (create_user (.ok ()) encode auth_email auth_token dc id data defaultData db
            ua dt hr).db
          = db ++ [⟨encode auth_email auth_token ua, id, dc.getD "" == "Beta",
              data.getD defaultData⟩])) := by
  constructor
  · intro hget
    constructor
    · intro hne
      simp only [create_user, make_response, make_log, toExcept, hget]
      simp [hne]
    · intro heq
      simp only [create_user, make_response, make_log, toExcept, hget]
      simp [heq]
  · intro hget
    constructor
    · intro v hv
      simp only [create_user, make_response, make_log, toExcept, hget, hv]
    · intro hid
      cases data <;> cases dc <;>
          simp [create_user, make_response, make_log, toExcept, hget, hid, create_userdata] <;>
        split <;> rfl

/-- Concrete instances of the C1 theorem: each of the four probe outcomes at
an explicit store. -/
theorem create_conflict_rules_witness :
    ((@create_user Unit (.ok ()) (fun _ _ _ => "t") "e" "a" none 6 none ()
        [⟨"t", 5, false, ()⟩] "k" "d" (fun _ _ => .ok [])).result
      = .error (.BadRequest "This account is already bound to another discord id")) ∧
    ((@create_user Unit (.ok ()) (fun _ _ _ => "t") "e" "a" none 5 none ()
        [⟨"t", 5, false, ()⟩] "k" "d" (fun _ _ => .ok [])).result
      = .error (.InternalError "You\x27re already linked, please use the update endpoint")) ∧
    ((@create_user Unit (.ok ()) (fun _ _ _ => "t") "e" "a" none 7 none ()
        [⟨"u", 7, false, ()⟩] "k" "d" (fun _ _ => .ok [])).result
      = .error (.BadRequest "This discord id is already bound to another account")) ∧
    ((@create_user Unit (.ok ()) (fun _ _ _ => "t") "e" "a" none 6 none ()
        [] "k" "d" (fun _ _ => .ok [])).db
      = [] ++ [⟨"t", 6, false, ()⟩]) :=
  ⟨((create_conflict_rules (fun _ _ _ => "t") "e" "a" none 6 none () [⟨"t", 5, false, ()⟩]
      "k" "d" (fun _ _ => .ok []) ⟨"t", 5, false, ()⟩).1 rfl).1 (by decide),
   ((create_conflict_rules (fun _ _ _ => "t") "e" "a" none 5 none () [⟨"t", 5, false, ()⟩]
      "k" "d" (fun _ _ => .ok []) ⟨"t", 5, false, ()⟩).1 rfl).2 rfl,
   ((create_conflict_rules (fun _ _ _ => "t") "e" "a" none 7 none () [⟨"u", 7, false, ()⟩]
      "k" "d" (fun _ _ => .ok []) ⟨"u", 7, false, ()⟩).2 rfl).1 ⟨"u", 7, false, ()⟩ rfl,
   ((create_conflict_rules (fun _ _ _ => "t") "e" "a" none 6 none () []
      "k" "d" (fun _ _ => .ok []) ⟨"t", 6, false, ()⟩).2 rfl).2 rfl⟩

/-- C4: when the request body supplies an explicit attribute payload and both
existence probes report not-found, create returns the created record verbatim
(not a message string) and its whole outcome is independent of the role
synchronizer; when the body supplies no payload, default attributes are used
and the synchronizer's answer determines the response message. -/
theorem create_explicit_attrs_skips_sync {Attr : Type}
    (encode : String → String → String → String)
    (auth_email auth_token : String) (dc : Option String) (id : Int)
    (a defaultData : Attr) (db : DB Attr) (ua dt : String)
    (hr hr2 : Userdata Attr → String → Except String (List String))
    (g : List String)
    (hget : get_userdata db (encode auth_email auth_token ua) = none)
    (hid : get_userdata_by_id db id = none) :
    ((create_user (.ok ()) encode auth_email auth_token dc id (some a) defaultData db
        ua dt hr).result
      = .ok (.record ⟨encode auth_email auth_token ua, id, dc.getD "" == "Beta", a⟩)) ∧
    (create_user (.ok ()) encode auth_email auth_token dc id (some a) defaultData db ua dt hr
      = create_user (.ok ()) encode auth_email auth_token dc id (some a) defaultData db
          ua dt hr2) ∧
    (hr ⟨encode auth_email auth_token ua, id, dc.getD "" == "Beta", defaultData⟩ dt = .ok g →
      (create_user (.ok ()) encode auth_email auth_token dc id none defaultData db
          ua dt hr).result
        = .ok (.message (roles_message g))) := by
  refine ⟨?_, ?_, ?_⟩
  · cases dc <;>
      simp [create_user, make_response, make_log, toExcept, hget, hid, create_userdata]
  · cases dc <;>
      simp [create_user, make_response, make_log, toExcept, hget, hid, create_userdata]
  · intro hroles
    cases dc <;>
      simp [Option.getD] at hroles <;>
      simp [create_user, make_response, make_log, toExcept, hget, hid, create_userdata, hroles]

/-- Concrete instance of the C4 theorem: with an explicit payload create
answers with the raw record, and with no payload the synchronizer's two roles
appear in the message. -/
theorem create_explicit_attrs_skips_sync_witness :
    ((@create_user Unit (.ok ()) (fun _ _ _ => "t") "e" "a" none 6 (some ()) () []
        "k" "d" (fun _ _ => .ok ["Veteran", "Beta"])).result
      = .ok (.record ⟨"t", 6, false, ()⟩)) ∧
    ((@create_user Unit (.ok ()) (fun _ _ _ => "t") "e" "a" none 6 none () []
        "k" "d" (fun _ _ => .ok ["Veteran", "Beta"])).result
      = .ok (.message (roles_message ["Veteran", "Beta"]))) :=
  ⟨(create_explicit_attrs_skips_sync (fun _ _ _ => "t") "e" "a" none 6 () () [] "k" "d"
      (fun _ _ => .ok ["Veteran", "Beta"]) (fun _ _ => .error "x") ["Veteran", "Beta"]
      rfl rfl).1,
   (create_explicit_attrs_skips_sync (fun _ _ _ => "t") "e" "a" none 6 () () [] "k" "d"
      (fun _ _ => .ok ["Veteran", "Beta"]) (fun _ _ => .error "x") ["Veteran", "Beta"]
      rfl rfl).2.2 rfl⟩

/-- C5: when the derived identity token has no existing record, update (and
legacy update) fails with the InternalError "Failed at retrieving existing
data", leaves the store exactly as it was (no record created or mutated), and
the outcome is independent of the role synchronizer. -/
theorem update_requires_existing {Attr : Type}
    (encode : String → String → String → String)
    (hmacSha1 : List Nat → List Nat → List Nat)
    (auth_email auth_token dc : String) (ud attrs : Attr) (db : DB Attr)
    (ua dt : String) (uab pid ptok : List Nat) (beta : Bool)
    (hr hr2 : Userdata Attr → String → Except String (List String)) :
    (get_userdata db (encode auth_email auth_token ua) = none →
      ((update_user (.ok ()) encode auth_email auth_token dc ud db ua dt hr).result
        = .error (.InternalError
            "Failed at retrieving existing data, you may not have your account linked yet")) ∧
      (update_user (.ok ()) encode auth_email auth_token dc ud db ua dt hr).db = db ∧
      update_user (.ok ()) encode auth_email auth_token dc ud db ua dt hr
        = update_user (.ok ()) encode auth_email auth_token dc ud db ua dt hr2) ∧
    (get_userdata db (renderHex (hmacSha1 uab (pid ++ ptok))) = none →
      ((og_update_user hmacSha1 (.ok ()) pid ptok beta attrs db uab dt hr).result
        = .error (.InternalError
            "Failed at retrieving existing data, you may not have your account linked yet")) ∧
      (og_update_user hmacSha1 (.ok ()) pid ptok beta attrs db uab dt hr).db = db ∧
      og_update_user hmacSha1 (.ok ()) pid ptok beta attrs db uab dt hr
        = og_update_user hmacSha1 (.ok ()) pid ptok beta attrs db uab dt hr2) := by
  constructor
  · intro hget
    simp [update_user, make_response, make_log, toExcept, hget]
  · intro hget
    simp [og_update_user, make_response, make_log, toExcept, hget]

/-- Concrete instance of the C5 theorem: on an empty store both update
entry points fail with the retrieval InternalError and leave the store
empty. -/
theorem update_requires_existing_witness :
    ((@update_user Unit (.ok ()) (fun _ _ _ => "t") "e" "a" "Beta" () [] "k" "d"
        (fun _ _ => .ok [])).result
      = .error (.InternalError
          "Failed at retrieving existing data, you may not have your account linked yet")) ∧
    ((@og_update_user Unit (fun _ _ => List.range 20) (.ok ()) [1] [2] true () [] [3] "d"
        (fun _ _ => .ok [])).result
      = .error (.InternalError
          "Failed at retrieving existing data, you may not have your account linked yet")) :=
  ⟨((update_requires_existing (fun _ _ _ => "t") (fun _ _ => List.range 20) "e" "a" "Beta"
      () () [] "k" "d" [3] [1] [2] true (fun _ _ => .ok []) (fun _ _ => .ok [])).1 rfl).1,
   ((update_requires_existing (fun _ _ _ => "t") (fun _ _ => List.range 20) "e" "a" "Beta"
      () () [] "k" "d" [3] [1] [2] true (fun _ _ => .ok []) (fun _ _ => .ok [])).2 rfl).1⟩

theorem make_response_log_error {T E : Type} (r : Except E T) (err : MyError)
    (t : ErrorLogType) {e : MyError} {l : List LogEntry}
    (h : make_log (make_response r err) t = (.error e, l)) : e = err := by
  cases r <;> simp_all [make_response, make_log]

/-- C7: create never surfaces the bare NotFound kind — whatever error a
create invocation returns is a BadRequest or an InternalError (the probes'
not-found results are consumed internally). -/
theorem create_never_surfaces_notfound {Attr : Type}
    (pool : Except String Unit)
    (encode : String → String → String → String)
    (auth_email auth_token : String) (dc : Option String) (id : Int)
    (data : Option Attr) (defaultData : Attr) (db : DB Attr) (ua dt : String)
    (hr : Userdata Attr → String → Except String (List String))
    (e : MyError)
    (h : (create_user pool encode auth_email auth_token dc id data defaultData db
        ua dt hr).result = .error e) :
    (∃ m, e = .BadRequest m) ∨ (∃ m, e = .InternalError m) := by
  unfold create_user at h
  repeat' (first | split at h | simp only [Outcome.result] at h)
  all_goals simp at h
  all_goals try (subst h; right; exact ⟨_, make_response_log_error _ _ _ (by assumption)⟩)
  all_goals first
    | exact .inl ⟨_, h.symm⟩
    | exact .inr ⟨_, h.symm⟩

/-- Concrete instance of the C7 theorem: the error returned by a create on an
already-linked token is not NotFound but a BadRequest or InternalError. -/
theorem create_never_surfaces_notfound_witness :
    (∃ m, MyError.BadRequest "This account is already bound to another discord id"
        = MyError.BadRequest m) ∨
    (∃ m, MyError.BadRequest "This account is already bound to another discord id"
        = MyError.InternalError m) :=
  create_never_surfaces_notfound (Except.ok ()) (fun _ _ _ => "t") "e" "a" none 6 none ()
    [⟨"t", 5, false, ()⟩] "k" "d" (fun _ _ => Except.ok []) _ rfl

/-- C8: delete is non-destructive — for an existing record it returns the
empty success response and leaves the store untouched (the record stays
retrievable); for a missing record it fails with the internal error. -/
theorem delete_nondestructive {Attr : Type}
    (encode : String → String → String → String)
    (auth_email auth_token : String) (db : DB Attr) (ua : String)
    (u : Userdata Attr)
    (hget : get_userdata db (encode auth_email auth_token ua) = some u) :
    (delete_user (.ok ()) encode auth_email auth_token db ua).result = .ok .noContent ∧
    (delete_user (.ok ()) encode auth_email auth_token db ua).db = db ∧
    get_userdata (delete_user (.ok ()) encode auth_email auth_token db ua).db
      (encode auth_email auth_token ua) = some u ∧
    (∀ db2 : DB Attr, get_userdata db2 (encode auth_email auth_token ua) = none →
      (delete_user (.ok ()) encode auth_email auth_token db2 ua).result
        = .error (.InternalError "Failed at deleting userdata, this token may not be valid")) := by
  refine ⟨?_, ?_, ?_, ?_⟩
  · simp [delete_user, make_response, make_log, toExcept, hget]
  · simp [delete_user, make_response, make_log, toExcept, hget]
  · simp [delete_user, make_response, make_log, toExcept, hget]
  · intro db2 h2
    simp [delete_user, make_response, make_log, toExcept, h2]

/-- Concrete instance of the C8 theorem: deleting an existing record answers
NoContent and the record is still retrievable from the resulting store. -/
theorem delete_nondestructive_witness :
    (@delete_user Unit (.ok ()) (fun _ _ _ => "t") "e" "a" [⟨"t", 5, false, ()⟩] "k").result
      = .ok .noContent ∧
    get_userdata (@delete_user Unit (.ok ()) (fun _ _ _ => "t") "e" "a"
      [⟨"t", 5, false, ()⟩] "k").db "t" = some ⟨"t", 5, false, ()⟩ :=
  ⟨(delete_nondestructive (fun _ _ _ => "t") "e" "a" [⟨"t", 5, false, ()⟩] "k"
      ⟨"t", 5, false, ()⟩ rfl).1,
   (delete_nondestructive (fun _ _ _ => "t") "e" "a" [⟨"t", 5, false, ()⟩] "k"
      ⟨"t", 5, false, ()⟩ rfl).2.2.1⟩

theorem get_userdata_some_token {Attr : Type} {db : DB Attr} {tok : String}
    {u : Userdata Attr} (h : get_userdata db tok = some u) : u.token = tok := by
  rw [get_userdata] at h
  have := List.find?_some h
  simpa using this

theorem get_userdata_map_update {Attr : Type} (db : DB Attr) (tok : String)
    (upd : Userdata Attr) (hupd : upd.token = tok) :
    ∀ u, get_userdata db tok = some u →
      get_userdata (db.map (fun v => if v.token == tok then upd else v)) tok = some upd := by
  intro u hu
  induction db with
  | nil => simp [get_userdata] at hu
  | cons v l ih =>
    by_cases hv : v.token = tok
    · simp [get_userdata, hv, hupd]
    · simp only [get_userdata, List.map_cons] at hu ⊢
      rw [List.find?_cons_of_neg _ (by simpa using hv)] at hu
      rw [if_neg (show ¬((v.token == tok) = true) by simpa using hv),
        List.find?_cons_of_neg _ (by simpa using hv)]
      exact ih hu

/-- C9: the stored channel flag is true exactly when the distribution-channel
header equals the literal string "Beta" under the case-sensitive string
comparison: the record update stores `dc == "Beta"`, the record create stores
the same comparison (with the absent header read as the empty string), and
the boolean comparison holds precisely on the exact literal. -/
theorem channel_flag_beta_literal {Attr : Type}
    (encode : String → String → String → String)
    (auth_email auth_token dc : String) (ud : Attr) (db : DB Attr)
    (ua dt : String) (hr : Userdata Attr → String → Except String (List String))
    (u : Userdata Attr) (dco : Option String) (id : Int)
    (data : Option Attr) (defaultData : Attr) :
    (get_userdata db (encode auth_email auth_token ua) = some u →
      get_userdata (update_user (.ok ()) encode auth_email auth_token dc ud db ua dt hr).db
          (encode auth_email auth_token ua)
        = some { u with beta_tester := dc == "Beta", data := ud }) ∧
    (get_userdata db (encode auth_email auth_token ua) = none →
      get_userdata_by_id db id = none →
      (create_user (.ok ()) encode auth_email auth_token dco id data defaultData db
          ua dt hr).db
        = db ++ [⟨encode auth_email auth_token ua, id, dco.getD "" == "Beta",
            data.getD defaultData⟩]) ∧
    (∀ s : String, (s == "Beta") = true ↔ s = "Beta") := by
  refine ⟨?_, ?_, ?_⟩
  · intro hget
    have htok : u.token = encode auth_email auth_token ua := get_userdata_some_token hget
    simp only [update_user, make_response, make_log, toExcept, hget, update_userdata]
    split <;>
      exact get_userdata_map_update db _ _ (by simpa using htok) u hget
  · intro hget hid
    cases data <;> cases dco <;>
        simp [create_user, make_response, make_log, toExcept, hget, hid, create_userdata] <;>
      split <;> rfl
  · intro s
    simp

/-- Concrete instance of the C9 theorem: the lowercase header "beta" does not
set the flag, while "Beta" does. -/
theorem channel_flag_beta_literal_witness :
    get_userdata (@update_user Unit (.ok ()) (fun _ _ _ => "t") "e" "a" "beta" ()
        [⟨"t", 5, true, ()⟩] "k" "d" (fun _ _ => .ok [])).db "t"
      = some ⟨"t", 5, false, ()⟩ ∧
    get_userdata (@update_user Unit (.ok ()) (fun _ _ _ => "t") "e" "a" "Beta" ()
        [⟨"t", 5, false, ()⟩] "k" "d" (fun _ _ => .ok [])).db "t"
      = some ⟨"t", 5, true, ()⟩ :=
  ⟨(channel_flag_beta_literal (fun _ _ _ => "t") "e" "a" "beta" () [⟨"t", 5, true, ()⟩]
      "k" "d" (fun _ _ => .ok []) ⟨"t", 5, true, ()⟩ none 0 none ()).1 rfl,
   (channel_flag_beta_literal (fun _ _ _ => "t") "e" "a" "Beta" () [⟨"t", 5, false, ()⟩]
      "k" "d" (fun _ _ => .ok []) ⟨"t", 5, false, ()⟩ none 0 none ()).1 rfl⟩

/-- C10: when create's token probe reports not-found — the normal path that
lets creation proceed — a FAILURE-severity audit entry carrying the identity
token is nevertheless emitted; such an invocation can still end in success
(no error returned to the caller); and a create with the distribution-channel
header absent stores the channel flag as false. -/
theorem create_probe_failure_logged {Attr : Type}
    (encode : String → String → String → String)
    (auth_email auth_token : String) (dco : Option String) (id : Int)
    (data : Option Attr) (a defaultData : Attr) (db : DB Attr) (ua dt : String)
    (hr : Userdata Attr → String → Except String (List String)) :
    (get_userdata db (encode auth_email auth_token ua) = none →
      (⟨logContent (.USER (encode auth_email auth_token ua)) .NotFound, .FAILURE⟩ : LogEntry)
        ∈ (create_user (.ok ()) encode auth_email auth_token dco id data defaultData db
            ua dt hr).log) ∧
    (get_userdata db (encode auth_email auth_token ua) = none →
      get_userdata_by_id db id = none →
      ∃ r, (create_user (.ok ()) encode auth_email auth_token dco id (some a) defaultData db
          ua dt hr).result = .ok r) ∧
    (get_userdata db (encode auth_email auth_token ua) = none →
      get_userdata_by_id db id = none →
      (create_user (.ok ()) encode auth_email auth_token none id data defaultData db
          ua dt hr).db
        = db ++ [⟨encode auth_email auth_token ua, id, false, data.getD defaultData⟩]) := by
  refine ⟨?_, ?_, ?_⟩
  · intro hget
    simp only [create_user, make_response, make_log, toExcept, hget]
    repeat' split
    all_goals simp
  · intro hget hid
    cases dco <;>
        simp [create_user, make_response, make_log, toExcept, hget, hid, create_userdata]
  · intro hget hid
    cases data <;>
        simp [create_user, make_response, make_log, toExcept, hget, hid, create_userdata] <;>
      split <;> rfl

/-- Concrete instance of the C10 theorem: a successful create on an empty
store has already emitted a FAILURE probe entry carrying the token, and with
no distribution-channel header the stored flag is false. -/
theorem create_probe_failure_logged_witness :
    ((⟨logContent (.USER "t") .NotFound, .FAILURE⟩ : LogEntry)
      ∈ (@create_user Unit (.ok ()) (fun _ _ _ => "t") "e" "a" none 6 (some ()) () []
          "k" "d" (fun _ _ => .ok [])).log) ∧
    (@create_user Unit (.ok ()) (fun _ _ _ => "t") "e" "a" none 6 (some ()) () []
        "k" "d" (fun _ _ => .ok [])).db
      = [] ++ [⟨"t", 6, false, ()⟩] :=
  ⟨(create_probe_failure_logged (fun _ _ _ => "t") "e" "a" none 6 (some ()) () () []
      "k" "d" (fun _ _ => .ok [])).1 rfl,
   (create_probe_failure_logged (fun _ _ _ => "t") "e" "a" none 6 (some ()) () () []
      "k" "d" (fun _ _ => .ok [])).2.2 rfl rfl⟩

/-- C2 as frozen fails on the code at a concrete input: with the synchronizer
returning the nonempty role set [""] (a single empty name), the caller-visible
message is the "no new roles" message and not the message listing the gained
role names joined by ", ". -/
theorem role_message_claim_counterexample :
    ((@update_user Unit (.ok ()) (fun _ _ _ => "t") "e" "a" "Beta" ()
        [⟨"t", 5, false, ()⟩] "k" "d" (fun _ _ => .ok [""])).result
      = .ok (.message
          "The request was successful, but you\x27ve already gained all of the possible roles with your current progress")) ∧
    ([""] ≠ ([] : List String)) ∧
    ("The request was successful, but you\x27ve already gained all of the possible roles with your current progress"
      ≠ "The request was successful, you\x27ve gained the following roles: "
          ++ String.intercalate ", " [""]) :=
  ⟨rfl, by decide, by decide⟩

/-- C2 amended: on the success path of update, legacy update and
create-with-default-attributes, the caller-visible message is determined by
the join of the gained role names by ", " — when that join is empty (which
happens for the empty set and also for a single empty name) the message
states no new roles were gained, otherwise the message lists the names joined
in the synchronizer's order — and a differently-worded INFORMATIONAL audit
message keyed by the external numeric identifier is emitted. -/
theorem role_message_amended {Attr : Type}
    (encode : String → String → String → String)
    (hmacSha1 : List Nat → List Nat → List Nat)
    (auth_email auth_token dc : String) (ud attrs : Attr) (db : DB Attr)
    (ua dt : String) (uab pid ptok : List Nat) (beta : Bool)
    (dco : Option String) (id : Int) (defaultData : Attr)
    (hr : Userdata Attr → String → Except String (List String))
    (u : Userdata Attr) (g : List String) :
    (String.intercalate ", " g = "" →
      roles_message g
        = "The request was successful, but you\x27ve already gained all of the possible roles with your current progress") ∧
    (String.intercalate ", " g ≠ "" →
      roles_message g
        = "The request was successful, you\x27ve gained the following roles: "
            ++ String.intercalate ", " g) ∧
    (String.intercalate ", " g = "" →
      logged_roles_message g id
        = "user with ID " ++ toString id ++ " had a successful request but gained no roles") ∧
    (String.intercalate ", " g ≠ "" →
      logged_roles_message g id
        = "user with ID " ++ toString id ++ " gained the following roles: "
            ++ String.intercalate ", " g) ∧
    (get_userdata db (encode auth_email auth_token ua) = some u →
      hr { u with beta_tester := dc == "Beta", data := ud } dt = .ok g →
      (update_user (.ok ()) encode auth_email auth_token dc ud db ua dt hr).result
          = .ok (.message (roles_message g)) ∧
      (⟨logged_roles_message g u.discord_id, .INFORMATIONAL⟩ : LogEntry)
        ∈ (update_user (.ok ()) encode auth_email auth_token dc ud db ua dt hr).log) ∧
    (get_userdata db (renderHex (hmacSha1 uab (pid ++ ptok))) = some u →
      hr { u with beta_tester := beta, data := attrs } dt = .ok g →
      (og_update_user hmacSha1 (.ok ()) pid ptok beta attrs db uab dt hr).result
          = .ok (.message (roles_message g)) ∧
      (⟨logged_roles_message g u.discord_id, .INFORMATIONAL⟩ : LogEntry)
        ∈ (og_update_user hmacSha1 (.ok ()) pid ptok beta attrs db uab dt hr).log) ∧
    (get_userdata db (encode auth_email auth_token ua) = none →
      get_userdata_by_id db id = none →
      hr ⟨encode auth_email auth_token ua, id, dco.getD "" == "Beta", defaultData⟩ dt
          = .ok g →
      (create_user (.ok ()) encode auth_email auth_token dco id none defaultData db
          ua dt hr).result
        = .ok (.message (roles_message g)) ∧
      (⟨logged_roles_message g id, .INFORMATIONAL⟩ : LogEntry)
        ∈ (create_user (.ok ()) encode auth_email auth_token dco id none defaultData db
            ua dt hr).log) := by
  refine ⟨?_, ?_, ?_, ?_, ?_, ?_, ?_⟩
  · intro h
    rw [roles_message, h]
    exact if_pos (by decide)
  · intro h
    simp [roles_message, String.isEmpty_iff, h]
  · intro h
    rw [logged_roles_message, h]
    exact if_pos (by decide)
  · intro h
    simp [logged_roles_message, String.isEmpty_iff, h]
  · intro hget hroles
    simp [update_user, make_response, make_log, toExcept, hget, update_userdata, hroles]
  · intro hget hroles
    simp [og_update_user, make_response, make_log, toExcept, hget, update_userdata, hroles]
  · intro hget hid hroles
    cases dco <;>
      simp [Option.getD] at hroles <;>
      simp [create_user, make_response, make_log, toExcept, hget, hid, create_userdata, hroles]

/-- Concrete instance of the C2 amended theorem: the synchronizer returning
two roles produces the message listing them joined by ", " and the parallel
audit message. -/
theorem role_message_amended_witness :
    (@update_user Unit (.ok ()) (fun _ _ _ => "t") "e" "a" "Beta" ()
        [⟨"t", 5, false, ()⟩] "k" "d" (fun _ _ => .ok ["Veteran", "Beta"])).result
      = .ok (.message (roles_message ["Veteran", "Beta"])) ∧
    roles_message ["Veteran", "Beta"]
      = "The request was successful, you\x27ve gained the following roles: "
          ++ String.intercalate ", " ["Veteran", "Beta"] :=
  ⟨((role_message_amended (fun _ _ _ => "t") (fun _ _ => List.range 20) "e" "a" "Beta"
      () () [⟨"t", 5, false, ()⟩] "k" "d" [3] [1] [2] true none 5 ()
      (fun _ _ => .ok ["Veteran", "Beta"]) ⟨"t", 5, false, ()⟩
      ["Veteran", "Beta"]).2.2.2.2.1 rfl rfl).1,
   (role_message_amended (fun _ _ _ => "t") (fun _ _ => List.range 20) "e" "a" "Beta"
      () () [⟨"t", 5, false, ()⟩] "k" "d" [3] [1] [2] true none 5 ()
      (fun _ _ => .ok ["Veteran", "Beta"]) ⟨"t", 5, false, ()⟩
      ["Veteran", "Beta"]).2.1 (by decide)⟩

/-- C3 as frozen fails on the code at a concrete input: a create invocation
hitting the "already bound to another discord id" conflict returns that
classified error while emitting no audit entry at all (its audit log is
empty), so not every returned error is recorded at FAILURE severity. -/
theorem error_audit_claim_counterexample :
    ((@create_user Unit (.ok ()) (fun _ _ _ => "t") "e" "a" none 6 none ()
        [⟨"t", 5, false, ()⟩] "k" "d" (fun _ _ => .ok [])).result
      = .error (.BadRequest "This account is already bound to another discord id")) ∧
    (@create_user Unit (.ok ()) (fun _ _ _ => "t") "e" "a" none 6 none ()
        [⟨"t", 5, false, ()⟩] "k" "d" (fun _ _ => .ok [])).log = [] ∧
    ((@update_user Unit (.error "connection refused") (fun _ _ _ => "t") "e" "a" "Beta" ()
        [] "k" "d" (fun _ _ => .ok [])).log
      = [⟨"request failed at creating database client, please try again", .FAILURE⟩]) :=
  ⟨rfl, rfl, rfl⟩

theorem logContent_user_injective (tok : String) (e1 e2 : MyError)
    (h : logContent (.USER tok) e1 = logContent (.USER tok) e2) : e1.str = e2.str := by
  have hd := congrArg String.data h
  simp only [logContent, String.data_append, List.append_assoc] at hd
  have h1 := List.append_cancel_left hd
  have h2 := List.append_cancel_left h1
  have h3 := List.append_cancel_left h2
  exact String.ext h3

theorem logContent_user_notfound_ne (tok : String) :
    logContent (.USER tok) .NotFound
      ≠ logContent (.USER tok)
          (.BadRequest "This discord id is already bound to another account") := by
  intro hc
  have := logContent_user_injective tok _ _ hc
  exact absurd this (by decide)

/-- C3 amended: every failure routed through the logging wrapper is recorded
to the audit sink at FAILURE severity before being returned — with the
identity token and the stringified classified error (not the original
collaborator detail, which the classifier discards) when a token exists, and
without a token for pre-token failures such as storage-handle acquisition.
Create's conflict errors, however, are never themselves recorded: on the two
token-probe conflicts ("already bound to another discord id" and "already
linked, use update") the invocation emits no audit entry at all, and on the
external-id conflict ("discord id already bound to another account") the only
audit entry emitted is the token probe's not-found FAILURE entry, whose
content is not a record of the returned conflict error. -/
theorem error_audit_amended :
    (∀ (T : Type) (e : MyError) (tok : String),
      @make_log T (.error e) (.USER tok)
        = (.error e,
            [⟨"Error with a user\n\ntoken: " ++ tok ++ "\n\n" ++ e.str, .FAILURE⟩])) ∧
    (∀ (T : Type) (e : MyError),
      @make_log T (.error e) .INTERNAL = (.error e, [⟨e.str, .FAILURE⟩])) ∧
    (∀ (Attr : Type) (encode : String → String → String → String)
      (auth_email auth_token : String) (dco : Option String) (id : Int)
      (data : Option Attr) (defaultData : Attr) (db : DB Attr) (ua dt : String)
      (hr : Userdata Attr → String → Except String (List String)) (u : Userdata Attr),
      get_userdata db (encode auth_email auth_token ua) = some u →
        (create_user (.ok ()) encode auth_email auth_token dco id data defaultData db
            ua dt hr).log = [] ∧
        ∃ e, (create_user (.ok ()) encode auth_email auth_token dco id data defaultData db
            ua dt hr).result = .error e) ∧
    (∀ (Attr : Type) (encode : String → String → String → String)
      (auth_email auth_token : String) (dco : Option String) (id : Int)
      (data : Option Attr) (defaultData : Attr) (db : DB Attr) (ua dt : String)
      (hr : Userdata Attr → String → Except String (List String)) (v : Userdata Attr),
      get_userdata db (encode auth_email auth_token ua) = none →
      get_userdata_by_id db id = some v →
        (create_user (.ok ()) encode auth_email auth_token dco id data defaultData db
            ua dt hr).result
          = .error (.BadRequest "This discord id is already bound to another account") ∧
        (create_user (.ok ()) encode auth_email auth_token dco id data defaultData db
            ua dt hr).log
          = [⟨logContent (.USER (encode auth_email auth_token ua)) .NotFound, .FAILURE⟩] ∧
        logContent (.USER (encode auth_email auth_token ua)) .NotFound
          ≠ logContent (.USER (encode auth_email auth_token ua))
              (.BadRequest "This discord id is already bound to another account")) ∧
    (∀ (Attr : Type) (s : String) (encode : String → String → String → String)
      (auth_email auth_token dc : String) (ud : Attr) (db : DB Attr) (ua dt : String)
      (hr : Userdata Attr → String → Except String (List String)),
      (update_user (.error s) encode auth_email auth_token dc ud db ua dt hr).log
        = [⟨(MyError.InternalError
            "request failed at creating database client, please try again").str,
            .FAILURE⟩]) := by
  refine ⟨fun T e tok => rfl, fun T e => rfl, ?_, ?_,
    fun Attr s encode ae atok dc ud db ua dt hr => rfl⟩
  · intro Attr encode auth_email auth_token dco id data defaultData db ua dt hr u hget
    constructor
    · simp only [create_user, make_response, make_log, toExcept, hget]
      split <;> rfl
    · simp only [create_user, make_response, make_log, toExcept, hget]
      split
      · exact ⟨_, rfl⟩
      · exact ⟨_, rfl⟩
  · intro Attr encode auth_email auth_token dco id data defaultData db ua dt hr v hget hv
    refine ⟨?_, ?_, logContent_user_notfound_ne _⟩
    · simp [create_user, make_response, make_log, toExcept, hget, hv]
    · simp [create_user, make_response, make_log, toExcept, hget, hv]

/-- Concrete instance of the C3 amended theorem: a user-attributed failure is
logged with the token and the classified error's rendering, a token-probe
conflict emits no audit entry, and an external-id conflict emits exactly the
probe's not-found entry. -/
theorem error_audit_amended_witness :
    @make_log Unit (.error (.InternalError "The role-handling process has failed")) (.USER "t")
      = (.error (.InternalError "The role-handling process has failed"),
          [⟨"Error with a user\n\ntoken: t\n\nThe role-handling process has failed",
            .FAILURE⟩]) ∧
    (@create_user Unit (.ok ()) (fun _ _ _ => "t") "e" "a" none 5 none ()
        [⟨"t", 5, false, ()⟩] "k" "d" (fun _ _ => .ok [])).log = [] ∧
    (@create_user Unit (.ok ()) (fun _ _ _ => "t") "e" "a" none 7 none ()
        [⟨"u", 7, false, ()⟩] "k" "d" (fun _ _ => .ok [])).log
      = [⟨logContent (.USER "t") .NotFound, .FAILURE⟩] :=
  ⟨error_audit_amended.1 Unit (.InternalError "The role-handling process has failed") "t",
   (error_audit_amended.2.2.1 Unit (fun _ _ _ => "t") "e" "a" none 5 none ()
      [⟨"t", 5, false, ()⟩] "k" "d" (fun _ _ => .ok []) ⟨"t", 5, false, ()⟩ rfl).1,
   (error_audit_amended.2.2.2.1 Unit (fun _ _ _ => "t") "e" "a" none 7 none ()
      [⟨"u", 7, false, ()⟩] "k" "d" (fun _ _ => .ok []) ⟨"u", 7, false, ()⟩
      rfl rfl).2.1⟩

end C2SUserData
